import Mathlib

/-!
Shallow embedding of `dwc-dataframe-validator` (src/dwc_validator/validate.py and
src/dwc_validator/model.py), together with theorems settling the claims about it.

A pandas cell is modelled as null (NaN/None), a string, or a number (ℚ).
A pandas DataFrame is a list of named columns plus a row count; well-formedness
(`DataFrame.wf`) states that column names are distinct and every column has the
row count's length.
-/

set_option maxRecDepth 2000

deriving instance DecidableEq for Except

namespace DwcV

/-- A scalar cell of a dataframe column: NaN/None, a string, or a number. -/
inductive Cell
  | null
  | str (s : String)
  | num (q : Rat)
deriving DecidableEq, Repr

def Cell.isNull : Cell → Bool
  | .null => true
  | _ => false

/-- Digits of a decimal literal to a natural number; `none` if empty or non-digit. -/
def parseDigits (cs : List Char) : Option Nat :=
  if cs ≠ [] ∧ cs.all Char.isDigit then
    some (cs.foldl (fun a c => a * 10 + (c.toNat - 48)) 0)
  else none

/-- Model of the string-to-number coercion performed by `pd.to_numeric`:
an optional sign followed by a plain decimal literal (digits with at most one
dot, at least one digit overall). Scientific notation and surrounding
whitespace are not modelled; no claim exercises them. -/
def parseNum (s : String) : Option Rat :=
  let cs := s.toList
  let signed : Rat × List Char :=
    match cs with
    | '-' :: r => (-1, r)
    | '+' :: r => (1, r)
    | _ => (1, cs)
  let ip := signed.2.takeWhile (fun c => c ≠ '.')
  let rest := signed.2.dropWhile (fun c => c ≠ '.')
  match rest with
  | [] => (parseDigits ip).map (fun n => signed.1 * n)
  | '.' :: fp =>
      if fp = [] then (parseDigits ip).map (fun n => signed.1 * n)
      else if ip = [] then
        (parseDigits fp).map (fun n => signed.1 * (n / ((10 : Rat) ^ fp.length)))
      else
        match parseDigits ip, parseDigits fp with
        | some n, some f => some (signed.1 * (n + f / ((10 : Rat) ^ fp.length)))
        | _, _ => none
  | _ => none

/-- `pd.to_numeric(column, errors='coerce')` applied to one cell:
null stays NaN (`none`), numbers pass through, strings are parsed or become NaN. -/
def Cell.toNumCoerce : Cell → Option Rat
  | .null => none
  | .num q => some q
  | .str s => parseNum s

/-- `Series.count()`: number of non-null cells. -/
def countNonNull (col : List Cell) : Nat :=
  (col.filter (fun c => !c.isNull)).length

/-- `Series.isna().sum()`: number of null cells. -/
def countNull (col : List Cell) : Nat :=
  (col.filter Cell.isNull).length

/-- `Series.nunique()`: number of distinct non-null values. -/
def nuniqueCells (col : List Cell) : Nat :=
  ((col.filter (fun c => !c.isNull)).dedup).length

/-- `Series.duplicated().sum()`: occurrences after the first of each value. -/
def dupCount (col : List Cell) : Nat :=
  col.length - col.dedup.length

/-- `Series.between(lo, hi, inclusive='both')` on a coerced cell; NaN is out of range. -/
def betweenQ (lo hi : Rat) : Option Rat → Bool
  | none => false
  | some q => decide (lo ≤ q) && decide (q ≤ hi)

/-- A dataframe: named columns plus the row count (`len(dataframe)` / `shape[0]`). -/
structure DataFrame where
  cols : List (String × List Cell)
  nrows : Nat
deriving DecidableEq, Repr

/-- `dataframe.columns`. -/
def DataFrame.columns (df : DataFrame) : List String :=
  df.cols.map Prod.fst

/-- `dataframe[name]`: the first column of that name, if present. -/
def DataFrame.getCol (df : DataFrame) (name : String) : Option (List Cell) :=
  (df.cols.find? (fun p => p.1 = name)).map Prod.snd

/-- Well-formedness: distinct column names, every column of length `nrows`. -/
def DataFrame.wf (df : DataFrame) : Prop :=
  df.columns.Nodup ∧ ∀ p ∈ df.cols, p.2.length = df.nrows

instance (df : DataFrame) : Decidable df.wf := by
  unfold DataFrame.wf; infer_instance

/-- Python-level failures surfaced by the code under `src/`. -/
inductive PyErr
  | keyError (k : String)
  | typeError
  | attributeError
  | processExit
deriving DecidableEq, Repr

/-! ## Report structures (src/dwc_validator/model.py) -/

/-- model.py `CoordinatesReport`. -/
structure CoordinatesReport where
  has_coordinates_fields : Bool
  invalid_decimal_latitude_count : Int
  invalid_decimal_longitude_count : Int
deriving DecidableEq, Repr

/-- model.py `VocabularyReport`. -/
structure VocabularyReport where
  field : String
  has_field : Bool
  recognised_count : Int
  unrecognised_count : Int
  non_matching_values : List String
deriving DecidableEq, Repr

/-- Parallel-array dictionary built by `create_taxonomy_report`
(`invalid_taxon_dict`): term name to appended values (`none` models Python None). -/
abbrev InvalidDict := List (String × List (Option Cell))

/-- model.py:43 `TaxonReport`: exactly the three parameters of its `__init__`
(defaults False, the shared empty list, the shared empty dict). The class has
no `valid_taxon_count` parameter or attribute. -/
structure TaxonReport where
  has_invalid_taxa : Bool
  unrecognised_taxa : InvalidDict
  suggested_names : InvalidDict
deriving DecidableEq, Repr

/-- model.py `DFValidationReport` fields (all required parameters of
`__init__` plus the three defaulted ones). -/
structure DFValidationReport where
  record_type : String
  record_count : Nat
  errors : List String
  warnings : List String
  column_counts : List (String × Nat)
  record_error_count : Int
  coordinates_report : Option CoordinatesReport
  records_with_taxonomy_count : Int
  taxonomy_report : Option TaxonReport
  records_with_temporal_count : Int
  records_with_recorded_by_count : Int
  vocab_reports : List VocabularyReport
  all_required_columns_present : Bool
  missing_columns : List String
deriving DecidableEq, Repr

/-! ## validate_required_fields (validate.py:196) -/

/-- Return value of `validate_required_fields`: the Python function returns the
int 0 when no required field is present, and otherwise a pandas Series of
per-column non-null counts (for the required fields present, in order). -/
inductive ReqResult
  | int (n : Nat)
  | series (items : List (String × Nat))
deriving DecidableEq, Repr

/-- validate.py:196 `validate_required_fields`. -/
def validate_required_fields (df : DataFrame) (required_fields : List String) : ReqResult :=
  if required_fields.all (fun f => df.getCol f = none) then .int 0
  else .series
    ((required_fields.filter (fun f => (df.getCol f).isSome)).map
      (fun f => (f, countNonNull ((df.getCol f).getD []))))

/-- Python `int(...)` applied to a `ReqResult`: converting a Series succeeds
only when it has exactly one element; otherwise pandas raises TypeError. -/
def intOfReq : ReqResult → Except PyErr Nat
  | .int n => .ok n
  | .series [x] => .ok x.2
  | .series _ => .error .typeError

/-! ## generate_coordinates_report (validate.py:230) -/

/-- validate.py:230 `generate_coordinates_report`; the warnings list is passed
in and the (possibly extended) list is returned alongside the report. -/
def generate_coordinates_report (df : DataFrame) (warnings : List String) :
    CoordinatesReport × List String :=
  match df.getCol "decimalLatitude", df.getCol "decimalLongitude" with
  | some latCol, some lonCol =>
      let lat_column_non_empty_count := countNonNull latCol
      let lon_column_non_empty_count := countNonNull lonCol
      let lat_valid_count :=
        (latCol.filter (fun c => betweenQ (-90) 90 c.toNumCoerce)).length
      let lon_valid_count :=
        (lonCol.filter (fun c => betweenQ (-180) 180 c.toNumCoerce)).length
      if lat_valid_count = lat_column_non_empty_count ∧
         lon_valid_count = lon_column_non_empty_count then
        (⟨true, 0, 0⟩, warnings)
      else
        (⟨true,
          (lat_column_non_empty_count : Int) - lat_valid_count,
          (lon_column_non_empty_count : Int) - lon_valid_count⟩,
         warnings ++ ["INVALID_OR_OUT_OF_RANGE_COORDINATES"])
  | _, _ => (⟨false, 0, 0⟩, warnings)

/-! ## check_id_fields (validate.py:282) -/

/-- Resolution of one candidate field inside the `check_id_fields` loop
(validate.py:310-320): when the candidate equals `id_term` the code reads the
canonical `id` column unconditionally (KeyError when absent); otherwise the
candidate's own column, whose absence is the MISSING_ID_FIELD branch. -/
inductive IdResolved
  | idKeyError
  | absent
  | found (s : List Cell)
deriving DecidableEq, Repr

def resolveIdField (id_term : String) (df : DataFrame) (field : String) : IdResolved :=
  if id_term = field then
    match df.getCol "id" with
    | some s => .found s
    | none => .idKeyError
  else
    match df.getCol field with
    | some s => .found s
    | none => .absent

/-- The `for field in id_fields` loop of validate.py:310-339; `single` is
`len(id_fields) == 1` computed on the original argument. -/
def check_id_fields_go (single : Bool) (id_term : String) (df : DataFrame) :
    List String → List String → Except PyErr (Nat × List String)
  | [], errors => .ok (0, errors)
  | field :: rest, errors =>
      match resolveIdField id_term df field with
      | .idKeyError => .error (.keyError "id")
      | .absent => .ok (df.nrows, errors ++ ["MISSING_ID_FIELD"])
      | .found id_field_series =>
          if id_field_series.all (fun c => !c.isNull) then
            if single then
              if nuniqueCells id_field_series = df.nrows then
                check_id_fields_go single id_term df rest errors
              else
                .ok (dupCount id_field_series, errors ++ ["DUPLICATE_ID_FIELD_VALUES"])
            else
              check_id_fields_go single id_term df rest errors
          else
            .ok (countNull id_field_series, errors ++ ["MISSING_ID_FIELD_VALUES"])

/-- validate.py:282 `check_id_fields` (a Python `None` candidate list is the
same falsy case as `[]`). Returns the error count with the extended errors list. -/
def check_id_fields (id_fields : List String) (id_term : String) (df : DataFrame)
    (errors : List String) : Except PyErr (Nat × List String) :=
  if id_fields = [] then .ok (0, errors)
  else check_id_fields_go (id_fields.length == 1) id_term df id_fields errors

/-! ## create_vocabulary_report (validate.py:342) -/

/-- Python `str.lower` / `str.upper` (character-wise, as for the ASCII term
names this code handles). -/
def strLower (s : String) : String := ⟨s.data.map Char.toLower⟩

def strUpper (s : String) : String := ⟨s.data.map Char.toUpper⟩

/-- `.str.lower()` on one cell: strings are lowered, anything else becomes NaN. -/
def pyStrLower : Cell → Cell
  | .str s => .str (strLower s)
  | _ => .null

/-- `numpy` string conversion of a cell (`x.astype(numpy.str_)`): NaN prints as
"nan"; numeric formatting is modelled by `Rat`'s printer (no claim samples a
numeric cell). -/
def cellToNumpyStr : Cell → String
  | .null => "nan"
  | .str s => s
  | .num q => toString q

/-- Lexicographic order on strings by character code (numpy's string order),
written over the character lists so it evaluates. -/
def charsLE : List Char → List Char → Bool
  | [], _ => true
  | _ :: _, [] => false
  | a :: as, b :: bs =>
      if a.val < b.val then true
      else if b.val < a.val then false
      else charsLE as bs

def strLE (a b : String) : Bool := charsLE a.data b.data

/-- `numpy.unique`: sorted distinct values. -/
def npUnique (l : List String) : List String :=
  l.dedup.insertionSort (fun a b => strLE a b = true)

/-- validate.py:342 `create_vocabulary_report`. -/
def create_vocabulary_report (df : DataFrame) (field : String)
    (controlled_vocabulary : List String) : VocabularyReport :=
  match df.getCol field with
  | none => ⟨field, false, 0, 0, []⟩
  | some col =>
      let not_populated_count := countNull col
      let populated_values := col.filter (fun c => !c.isNull)
      if populated_values.length > 0 then
        let controlled_vocabulary_lower := controlled_vocabulary.map strLower
        let matching_records_count :=
          (populated_values.filter (fun c =>
            match pyStrLower c with
            | .str s => s ∈ controlled_vocabulary_lower
            | _ => false)).length
        -- `~dataframe[field].str.lower().isin(vocab)`: a lowered NaN is not in the
        -- vocabulary, so null rows are part of the non-matching selection
        let non_matching_cells := col.filter (fun c =>
          match pyStrLower c with
          | .str s => !(s ∈ controlled_vocabulary_lower : Bool)
          | _ => true)
        let non_matching0 := (npUnique (non_matching_cells.map cellToNumpyStr)).take 10
        let non_matching := non_matching0.erase "nan"
        ⟨field, true, matching_records_count,
          (df.nrows : Int) - (not_populated_count + matching_records_count),
          non_matching⟩
      else
        ⟨field, true, 0, (df.nrows : Int) - (not_populated_count + 0), []⟩

/-! ## validate_numeric_fields (validate.py:408) -/

def numeric_fields : List String :=
  ["decimalLatitude", "decimalLongitude", "coordinateUncertaintyInMeters",
   "coordinatePrecision", "elevation", "depth", "minimumDepthInMeters",
   "maximumDepthInMeters", "minimumDistanceAboveSurfaceInMeters",
   "maximumDistanceAboveSurfaceInMeters", "individualCount", "organismQuantity",
   "organismSize", "sampleSizeValue", "temperatureInCelsius", "organismAge",
   "year", "month", "day", "startDayOfYear", "endDayOfYear"]

/-- The per-element test of validate.py:452: it is applied to the *already
coerced* series, whose elements are NaN (`pd.isna` true) or numbers
(`pd.api.types.is_float` / `is_integer` true), so both branches answer true. -/
def is_numeric_or_empty : Option Rat → Bool
  | none => true
  | some _ => true

/-- validate.py:408 `validate_numeric_fields`: appends
`NON_NUMERIC_VALUES_IN_<FIELD>` when the coerced column fails the element test. -/
def validate_numeric_fields (df : DataFrame) (warnings : List String) : List String :=
  numeric_fields.foldl
    (fun ws field =>
      match df.getCol field with
      | none => ws
      | some col =>
          let numeric_test := col.map Cell.toNumCoerce
          let is_valid := numeric_test.all is_numeric_or_empty
          if is_valid then ws
          else ws ++ ["NON_NUMERIC_VALUES_IN_" ++ strUpper field])
    warnings

/-! ## create_taxonomy_report (validate.py:465)

The name-matching collaborator (the HTTP service behind
`api.ala.org.au/namematching`) is abstracted as a record of three pure
operations matching the shapes the code reads from the JSON responses. -/

/-- One entry of the batch classification response; the code only reads whether
the entry has a `scientificName` key equal to the submitted name. -/
structure BatchItem where
  scientificName : Option Cell
deriving DecidableEq, Repr

/-- One synonym record inside an autocomplete result. -/
structure SynMatch where
  name : Cell
  rank : Option Cell
  cl : List (String × Cell)
deriving DecidableEq, Repr

/-- One autocomplete result: `rank` is nullable; a missing `synonymMatch` key is
`none` (reading it then raises KeyError, validate.py:527). -/
structure AutoResult where
  name : Cell
  rank : Option Cell
  cl : List (String × Cell)
  synonymMatch : Option (List SynMatch)
deriving DecidableEq, Repr

/-- The exact-search response: a `success` flag plus the remaining JSON fields. -/
structure SearchResult where
  success : Bool
  data : List (String × Cell)
deriving DecidableEq, Repr

/-- The taxonomy collaborator: batch classification, autocomplete
(query, max results, include-synonyms flag), exact search. -/
structure Collab where
  batch : List Cell → List BatchItem
  autocomplete : String → Nat → Bool → List AutoResult
  search : String → SearchResult

/-- Append one value to one key's parallel array of `invalid_taxon_dict`. -/
def dictAppend (d : InvalidDict) (k : String) (v : Option Cell) : InvalidDict :=
  d.map (fun p => if p.1 = k then (p.1, p.2 ++ [v]) else p)

/-- The three leading appends common to every fallback tier
("original name", "proposed match(es)", "rank of proposed match(es)"). -/
def dictAppend3 (d : InvalidDict) (item name rank : Cell) : InvalidDict :=
  dictAppend (dictAppend (dictAppend d "original name" (some item))
    "proposed match(es)" (some name)) "rank of proposed match(es)" (some rank)

/-- The `for term in taxon_terms` loop of the ranked-autocomplete tier
(validate.py:519-523) and of the search tier (validate.py:547-551):
present terms append their value, absent terms append None. -/
def appendClTerms (taxon_terms : List String) (cl : List (String × Cell))
    (d : InvalidDict) : InvalidDict :=
  taxon_terms.foldl
    (fun d term =>
      match cl.lookup term with
      | some v => dictAppend d term (some v)
      | none => dictAppend d term none)
    d

/-- The synonym tier's term loop (validate.py:532-536). The `else` on line 535
is attached to the `for`, so absent terms append nothing inside the loop and a
single None is appended to the *last* term after the loop finishes (the dangling
loop variable; the unbound-variable case of an empty term list is not modelled,
as no claim reaches it). -/
def appendClTermsForElse (taxon_terms : List String) (cl : List (String × Cell))
    (d : InvalidDict) : InvalidDict :=
  let d := taxon_terms.foldl
    (fun d term =>
      match cl.lookup term with
      | some v => dictAppend d term (some v)
      | none => d)
    d
  match taxon_terms.getLast? with
  | some term => dictAppend d term none
  | none => d

/-- The synonym loop of validate.py:527-538: every ranked synonym is recorded. -/
def synonymFold (taxon_terms : List String) (item : Cell) (syns : List SynMatch)
    (d : InvalidDict) : InvalidDict :=
  syns.foldl
    (fun d syn =>
      match syn.rank with
      | some rk => appendClTermsForElse taxon_terms syn.cl (dictAppend3 d item syn.name rk)
      | none => d)
    d

/-- The body of the `for i,item in enumerate(scientific_names_list)` loop
(validate.py:506-556) for one name, threading `(has_invalid_taxa,
invalid_taxon_dict)`. A name matched in the batch response is left alone;
otherwise the autocomplete tier runs (on a non-string name, `item.split`
raises AttributeError first), and an empty autocomplete falls back to the
exact search, whose failure is `sys.exit()` (modelled as `processExit`). -/
def taxonStep (collab : Collab) (taxon_terms : List String) (num_matches : Nat)
    (include_synonyms : Bool) (batchResp : List BatchItem)
    (st : Bool × InvalidDict) (item : Cell) : Except PyErr (Bool × InvalidDict) :=
  if batchResp.any (fun d => d.scientificName = some item) then .ok st
  else
    match item with
    | .str s =>
        match collab.autocomplete s num_matches include_synonyms with
        | r :: _ =>
            match r.rank with
            | some rk =>
                .ok (true, appendClTerms taxon_terms r.cl (dictAppend3 st.2 item r.name rk))
            | none =>
                match r.synonymMatch with
                | none => .error (.keyError "synonymMatch")
                | some syns => .ok (true, synonymFold taxon_terms item syns st.2)
        | [] =>
            let sr := collab.search s
            if sr.success then
              match sr.data.lookup "scientificName", sr.data.lookup "rank" with
              | some sn, some rk =>
                  .ok (true, appendClTerms taxon_terms sr.data (dictAppend3 st.2 item sn rk))
              | none, _ => .error (.keyError "scientificName")
              | _, none => .error (.keyError "rank")
            else .error .processExit
    | _ => .error .attributeError

/-- Initial `invalid_taxon_dict` (validate.py:501-502). -/
def initInvalidDict (taxon_terms : List String) : InvalidDict :=
  (["original name", "proposed match(es)", "rank of proposed match(es)"] ++ taxon_terms).map
    (fun t => (t, []))

/-- The `valid_taxon_count` computation of validate.py:558-568 given the Series
items of `validate_required_fields`. -/
def validTaxonFold (nrows : Nat) (items : List (String × Nat)) : Nat :=
  let m := items.foldl
    (fun acc e => if e.1 ≠ "vernacularName" ∧ e.2 < nrows ∧ e.2 < acc then e.2 else acc)
    999
  if nrows < m then nrows else m

/-- validate.py:465 `create_taxonomy_report`. `taxon_terms` is
`taxon_terms["Australia"]` and `required_taxonomy_columns` the vocab list, both
from dwc_validator/vocab.py (not under src/, so passed as parameters);
`scientific_names_list` is `list(set(...))`, modelled as first-occurrence
deduplication (Python set order is unspecified). The return statement at
validate.py:573 calls `TaxonReport(..., valid_taxon_count=...)`, a keyword
`TaxonReport.__init__` (model.py:48-52) does not accept, so every path that
reaches the return raises TypeError instead of producing a report. -/
def create_taxonomy_report (collab : Collab) (taxon_terms : List String)
    (required_taxonomy_columns : List String) (df : DataFrame)
    (num_matches : Nat) (include_synonyms : Bool) :
    Except PyErr (Option TaxonReport) :=
  match df.getCol "scientificName" with
  | none => .ok none
  | some col => do
      let scientific_names_list := col.dedup
      let batchResp := collab.batch scientific_names_list
      let (has_invalid_taxa, _invalid_taxon_dict) ←
        scientific_names_list.foldlM
          (taxonStep collab taxon_terms num_matches include_synonyms batchResp)
          (false, initInvalidDict taxon_terms)
      let _valid_taxon_count ←
        if has_invalid_taxa then pure 0
        else
          match validate_required_fields df required_taxonomy_columns with
          | .int _ => .error .attributeError  -- `(0).items()` raises AttributeError
          | .series items => pure (validTaxonFold df.nrows items)
      .error .typeError

/-! ## create_datetime_report (validate.py:579) and the orchestrators -/

/-- validate.py:579 `create_datetime_report`: without an `eventDate` column it
returns the Python set `{True, nrows}` (modelled as the pair); with one it
prints `event_dates[0]` — KeyError on an empty frame — and then calls
`sys.exit()` unconditionally. -/
def create_datetime_report (df : DataFrame) : Except PyErr (Bool × Nat) :=
  match df.getCol "eventDate" with
  | none => .ok (true, df.nrows)
  | some _ =>
      if df.nrows = 0 then .error (.keyError "0")
      else .error .processExit

/-- Modelled from the spec: `field_populated_counts` lives in
dwc_validator/breakdown.py, which is not under src/; §2 describes ColumnStats
as computing per-column population counts. -/
def field_populated_counts (df : DataFrame) : List (String × Nat) :=
  df.cols.map (fun p => (p.1, countNonNull p.2))

/-- Modelled from the spec: the controlled lists of dwc_validator/vocab.py,
which is not under src/. The spec (§2, §4.3, §4.6) names the lists but not
their members, so the orchestrator takes them as parameters. -/
structure Vocab where
  required_taxonomy_columns : List String
  required_columns_spatial_vocab : List String
  required_columns_other : List String
  basis_of_record_vocabulary : List String
  geodetic_datum_vocabulary : List String
  taxon_terms_australia : List String

/-- Modelled from the spec: a concrete instantiation of the vocab.py lists for
closed evaluations, following the spec's words (taxonomy columns include
scientificName and vernacularName plus classification terms; the spatial set
holds the coordinate-related terms; the other-required set the non-spatial
required Darwin Core terms; §4.5 and the glossary name basisOfRecord and
geodeticDatum vocabularies). -/
def specVocab : Vocab :=
  ⟨["scientificName", "vernacularName", "kingdom", "phylum", "class", "order",
    "family", "genus"],
   ["decimalLatitude", "decimalLongitude", "geodeticDatum",
    "coordinateUncertaintyInMeters"],
   ["basisOfRecord", "scientificName", "eventDate"],
   ["HumanObservation", "PreservedSpecimen", "FossilSpecimen", "LivingSpecimen",
    "MachineObservation", "MaterialSample", "Observation"],
   ["WGS84", "EPSG:4326"],
   ["kingdom", "phylum", "class", "order", "family", "genus", "species"]⟩

/-- `list(set(required).difference(set(columns)))` (validate.py:56/77),
determinised to first-occurrence order. -/
def setDiff (required columns : List String) : List String :=
  (required.filter (fun f => !(f ∈ columns : Bool))).dedup

/-- The taxonomy block of validate_occurrence_dataframe (validate.py:47-65):
may reassign `missing_columns` and may produce a taxonomy report. -/
def occurrence_taxonomy_block (V : Vocab) (collab : Collab) (df : DataFrame) :
    Except PyErr (List String × Option TaxonReport) :=
  if df.columns.any (fun v => v ∈ V.required_taxonomy_columns) then
    if !(V.required_taxonomy_columns.all (fun f => f ∈ df.columns)) then
      .ok (setDiff V.required_taxonomy_columns df.columns, none)
    else if "scientificName" ∈ df.columns then
      (create_taxonomy_report collab V.taxon_terms_australia
        V.required_taxonomy_columns df 5 true).map (fun r => ([], r))
    else .ok ([], none)
  else .ok ([], none)

/-- The required-columns block of validate_occurrence_dataframe
(validate.py:70-88). In the non-spatial branch `check_missing_fields` is the
Bool of `issuperset`, so the guard `type(check_missing_fields) is not bool`
(validate.py:83) is always false: the missing-columns computation and the two
MAYBE advisory appends are unreachable and `missing_columns` keeps its prior
value. -/
def occurrence_spatial_block (V : Vocab) (df : DataFrame)
    (missing_columns : List String) : List String :=
  if df.columns.any (fun v => v ∈ V.required_columns_spatial_vocab) then
    if !(V.required_columns_spatial_vocab.all (fun f => f ∈ df.columns)) then
      setDiff V.required_columns_spatial_vocab df.columns
    else missing_columns
  else missing_columns

/-- The any-of identifier block of validate_occurrence_dataframe
(validate.py:91-101). -/
def occurrence_anyof_block (df : DataFrame) (missing_columns : List String) :
    List String :=
  if ["occurrenceID", "catalogNumber", "recordNumber"].any (fun e => e ∈ df.columns) then
    missing_columns
  else missing_columns ++ ["occurrenceID OR catalogNumber OR recordNumber"]

/-- Lines 40-106 of validate_occurrence_dataframe: the final
`missing_columns`, `all_required_columns_present` (validate.py:105), and the
optional taxonomy report. -/
def occurrence_missing_columns (V : Vocab) (collab : Collab) (df : DataFrame) :
    Except PyErr (List String × Bool × Option TaxonReport) := do
  let (missing0, taxonomy_report) ← occurrence_taxonomy_block V collab df
  let missing1 := occurrence_spatial_block V df missing0
  let missing_columns := occurrence_anyof_block df missing1
  pure (missing_columns, missing_columns.length == 0, taxonomy_report)

/-- validate.py:18 `validate_occurrence_dataframe`. Every step of the body is
run in source order; the `DFValidationReport(...)` construction at
validate.py:133 omits the required `__init__` parameters
`records_with_taxonomy_count` and `records_with_recorded_by_count`
(model.py:64-79), so Python raises TypeError there on every path that
reaches it. -/
def validate_occurrence_dataframe (V : Vocab) (collab : Collab) (df : DataFrame)
    (id_fields : List String) (id_term : String) :
    Except PyErr DFValidationReport := do
  let (_record_error_count, _errors) ← check_id_fields id_fields id_term df []
  let warnings := validate_numeric_fields df []
  let (_missing_columns, _all_required, _taxonomy_report) ←
    occurrence_missing_columns V collab df
  let (_coordinates_report, _warnings) := generate_coordinates_report df warnings
  let _datetime_report ← create_datetime_report df
  -- validate.py:125 tests `["geodeticDatum"] in list(dataframe.columns)`: a list
  -- is never equal to a string column name, so only the basisOfRecord report exists
  let _vocabs_reports := [create_vocabulary_report df "basisOfRecord" V.basis_of_record_vocabulary]
  let _column_counts := field_populated_counts df
  .error .typeError

/-- validate.py:149 `validate_event_dataframe`. Its report construction
(validate.py:181) converts the two `validate_required_fields` Series with
`int(...)` — a TypeError unless the Series has exactly one element — and omits
the required `taxonomy_report` parameter of `DFValidationReport.__init__`,
so it too raises TypeError on every path that reaches the construction. -/
def validate_event_dataframe (V : Vocab) (df : DataFrame) :
    Except PyErr DFValidationReport := do
  let (_record_error_count, _errors) ← check_id_fields ["eventID"] "" df []
  let warnings := validate_numeric_fields df []
  let valid_temporal_count := validate_required_fields df ["eventDate", "year", "month", "day"]
  let (_coordinates_report, _warnings) := generate_coordinates_report df warnings
  let valid_recorded_by_count := validate_required_fields df ["recordedBy", "recordedByID"]
  let _vocabs_reports := [create_vocabulary_report df "geodeticDatum" V.geodetic_datum_vocabulary]
  let _records_with_temporal_count ← intOfReq valid_temporal_count
  let _records_with_recorded_by_count ← intOfReq valid_recorded_by_count
  let _column_counts := field_populated_counts df
  .error .typeError

/-! ## Python default-argument aliasing (model.py:48-55)

`TaxonReport.__init__` declares `unrecognised_taxa: list = []` and
`suggested_names: dict = {}`. Python evaluates default values once, when the
`def` is executed, so every construction that does not supply the argument
receives a reference to the *same* container object. The heap below makes that
reference semantics explicit: addresses index a store of containers; the two
default containers are allocated once at class-definition time. -/

/-- A store of list-valued containers; an address is an index. -/
structure PyHeap where
  store : List (List String)
deriving DecidableEq, Repr

def PyHeap.alloc (h : PyHeap) (v : List String) : PyHeap × Nat :=
  (⟨h.store ++ [v]⟩, h.store.length)

def PyHeap.get (h : PyHeap) (a : Nat) : List String :=
  (h.store[a]?).getD []

def PyHeap.mutate (h : PyHeap) (a : Nat) (v : List String) : PyHeap :=
  ⟨h.store.set a v⟩

/-- The module heap after `class TaxonReport` is evaluated: the default list
and default dict (both modelled as list containers) live at addresses 0 and 1. -/
def taxonClassHeap : PyHeap := ⟨[[], []]⟩

/-- Address of the shared `unrecognised_taxa: list = []` default. -/
def taxonDefaultUnrecognised : Nat := 0

/-- Address of the shared `suggested_names: dict = \x7b\x7d` default. -/
def taxonDefaultSuggested : Nat := 1

/-- model.py TaxonReport at reference level: the collection attributes hold
addresses into the heap. -/
structure TaxonReportObj where
  has_invalid_taxa : Bool
  unrecognised_taxa : Nat
  suggested_names : Nat
deriving DecidableEq, Repr

/-- model.py:48 `TaxonReport.__init__`: a supplied argument is the caller's
reference; an unsupplied one is the shared default container's address. -/
def TaxonReport.init (has_invalid_taxa : Bool) (unrecognised_taxa : Option Nat)
    (suggested_names : Option Nat) : TaxonReportObj :=
  ⟨has_invalid_taxa,
   unrecognised_taxa.getD taxonDefaultUnrecognised,
   suggested_names.getD taxonDefaultSuggested⟩

/-- What a report's `unrecognised_taxa` collection reads as, on a given heap. -/
def observeUnrecognised (h : PyHeap) (r : TaxonReportObj) : List String :=
  h.get r.unrecognised_taxa

/-- Mutating a report's `unrecognised_taxa` collection in place. -/
def mutateUnrecognised (h : PyHeap) (r : TaxonReportObj) (v : List String) : PyHeap :=
  h.mutate r.unrecognised_taxa v

/-! ## Concrete inputs used by closed theorems and witnesses -/

/-- A collaborator that answers every request (empty batch, empty autocomplete,
an unsuccessful search); the C1/C3 inputs never consult it. -/
def trivialCollab : Collab := ⟨fun _ => [], fun _ _ _ => [], fun _ => ⟨false, []⟩⟩

/-- A collaborator whose batch response recognises every submitted name. -/
def batchAllCollab : Collab :=
  ⟨fun names => names.map (fun c => ⟨some c⟩), fun _ _ _ => [], fun _ => ⟨false, []⟩⟩

def dfEmpty : DataFrame := ⟨[], 0⟩

/-- An occurrence frame with only an occurrenceID column: no spatial-vocabulary
column is present and every member of the other-required set is missing. -/
def dfC3 : DataFrame := ⟨[("occurrenceID", [.str "1"])], 1⟩

/-- A frame with neither an `id` column nor the candidate columns `a`/`b`. -/
def dfC10 : DataFrame := ⟨[("foo", [.str "1", .str "2"])], 2⟩

/-- A frame with an occurrenceID column (with a duplicate) but no `id` column. -/
def dfC6 : DataFrame := ⟨[("occurrenceID", [.str "1", .str "1"])], 2⟩

/-- Scenario 1 of §8: latitude [45, 95, -10], longitude [100, 100, 200]. -/
def dfS1 : DataFrame :=
  ⟨[("occurrenceID", [.str "1", .str "2", .str "3"]),
    ("decimalLatitude", [.num 45, .num 95, .num (-10)]),
    ("decimalLongitude", [.num 100, .num 100, .num 200])], 3⟩

/-- Scenario 3 of §8: basisOfRecord [Observation, observation, Bogus, null]. -/
def dfS3 : DataFrame :=
  ⟨[("basisOfRecord", [.str "Observation", .str "observation", .str "Bogus", .null])], 4⟩

/-- A frame whose decimalLatitude column holds a non-numeric string. -/
def dfC2 : DataFrame := ⟨[("decimalLatitude", [.str "abc"])], 1⟩

/-- n rows with every spec-modelled required taxonomy column fully populated. -/
def dfRepN (n : Nat) : DataFrame :=
  ⟨[("scientificName", List.replicate n (.str "x")),
    ("vernacularName", List.replicate n (.str "x")),
    ("kingdom", List.replicate n (.str "x")),
    ("phylum", List.replicate n (.str "x")),
    ("class", List.replicate n (.str "x")),
    ("order", List.replicate n (.str "x")),
    ("family", List.replicate n (.str "x")),
    ("genus", List.replicate n (.str "x"))], n⟩

/-- Two distinct scientific names, unmatched by `trivialCollab` at every tier. -/
def dfC5 : DataFrame := ⟨[("scientificName", [.str "Aus bus", .str "Cus dus"])], 2⟩

/-! ## Claim C1 and helper lemmas -/

theorem bind_error {α β : Type} (x : Except PyErr α) (f : α → Except PyErr β)
    (h : ∀ a, ∃ e, f a = .error e) : ∃ e, (x >>= f) = .error e := by
  cases x with
  | error e => exact ⟨e, rfl⟩
  | ok a => exact h a

/-- C1: the claim says both entry modes construct and return a DFValidationReport
for every dataframe (no exception, no exit). In the code they never do: both
`DFValidationReport(...)` calls omit required `__init__` parameters, so every
call that reaches the construction raises TypeError, and earlier steps can only
fail with other exceptions. The theorem shows both entry modes produce an
exception for every input. -/
theorem C1_entry_modes_never_return :
    (∀ (V : Vocab) (collab : Collab) (df : DataFrame) (id_fields : List String)
      (id_term : String),
      ∃ e, validate_occurrence_dataframe V collab df id_fields id_term = .error e) ∧
    (∀ (V : Vocab) (df : DataFrame), ∃ e, validate_event_dataframe V df = .error e) := by
  constructor
  · intro V collab df id_fields id_term
    unfold validate_occurrence_dataframe
    apply bind_error; intro p
    apply bind_error; intro q
    apply bind_error; intro r
    exact ⟨.typeError, rfl⟩
  · intro V df
    unfold validate_event_dataframe
    apply bind_error; intro p
    apply bind_error; intro q
    apply bind_error; intro r
    exact ⟨.typeError, rfl⟩

/-! ## Claim C2 -/

theorem is_numeric_or_empty_true (x : Option Rat) : is_numeric_or_empty x = true := by
  cases x <;> rfl

theorem numeric_step_eq (df : DataFrame) (ws : List String) (field : String) :
    (match df.getCol field with
      | none => ws
      | some col =>
          let numeric_test := col.map Cell.toNumCoerce
          let is_valid := numeric_test.all is_numeric_or_empty
          if is_valid then ws
          else ws ++ ["NON_NUMERIC_VALUES_IN_" ++ strUpper field]) = ws := by
  cases h : df.getCol field with
  | none => rfl
  | some col =>
      simp only []
      have hall : (col.map Cell.toNumCoerce).all is_numeric_or_empty = true :=
        List.all_eq_true.mpr (fun x _ => is_numeric_or_empty_true x)
      rw [hall]
      rfl

theorem numeric_foldl_eq (df : DataFrame) (fields : List String) (ws : List String) :
    fields.foldl
      (fun ws field =>
        match df.getCol field with
        | none => ws
        | some col =>
            let numeric_test := col.map Cell.toNumCoerce
            let is_valid := numeric_test.all is_numeric_or_empty
            if is_valid then ws
            else ws ++ ["NON_NUMERIC_VALUES_IN_" ++ strUpper field])
      ws = ws := by
  induction fields generalizing ws with
  | nil => rfl
  | cons f rest ih =>
      rw [List.foldl_cons]
      rw [show (match df.getCol f with
        | none => ws
        | some col =>
            let numeric_test := col.map Cell.toNumCoerce
            let is_valid := numeric_test.all is_numeric_or_empty
            if is_valid then ws
            else ws ++ ["NON_NUMERIC_VALUES_IN_" ++ strUpper f]) = ws from
        numeric_step_eq df ws f]
      exact ih ws

/-- C2: the claim says a field whose non-null cells fail numeric coercion gets
a NON_NUMERIC_VALUES_IN_<FIELD> warning. In the code the per-element test runs
on the already-coerced series, where every element is a number or NaN, so
`is_valid` is always true and no warning is ever appended: the warnings list is
returned unchanged for every dataframe. -/
theorem C2_numeric_fields_never_warn (df : DataFrame) (warnings : List String) :
    validate_numeric_fields df warnings = warnings :=
  numeric_foldl_eq df numeric_fields warnings

/-! ## Claim C3 -/

/-- C3: the claim says an occurrence frame with no spatial-vocabulary column and
missing other-required columns gets missing_columns = (required-other minus
present) plus the two MAYBE advisories. In the code the guard
`type(check_missing_fields) is not bool` (validate.py:83) is always false, so
that branch is dead: for a frame with only occurrenceID (no spatial column,
all three spec-modelled other-required columns missing) the final
missing-columns list is empty and all_required_columns_present is true. -/
theorem C3_other_required_branch_dead :
    dfC3.columns.any (fun v => v ∈ specVocab.required_columns_spatial_vocab) = false ∧
    setDiff specVocab.required_columns_other dfC3.columns =
      ["basisOfRecord", "scientificName", "eventDate"] ∧
    occurrence_missing_columns specVocab trivialCollab dfC3 = .ok ([], true, none) := by
  refine ⟨by decide, by decide, by decide⟩

/-! ## Claim C9 -/

/-- C9 counterexample: two TaxonReport constructions that leave the defaulted
collection arguments unsupplied share the module-level default list, so a
mutation through the first report is observable through the second (the claim
asserts it is not). -/
theorem C9_counterexample :
    observeUnrecognised taxonClassHeap (TaxonReport.init false none none) = [] ∧
    observeUnrecognised
      (mutateUnrecognised taxonClassHeap (TaxonReport.init true none none) ["mutated"])
      (TaxonReport.init false none none) = ["mutated"] := by
  exact ⟨rfl, rfl⟩

/-- C9 (amended): constructions that supply their own (distinct) collection
references never observe each other's mutations, while constructions that leave
the defaulted collection arguments unsupplied receive the same shared default
container. -/
theorem C9_default_sharing_amended :
    (∀ (h : PyHeap) (a b : Nat) (v : List String) (ha hb : Bool), a ≠ b →
      observeUnrecognised (mutateUnrecognised h (TaxonReport.init ha (some a) none) v)
        (TaxonReport.init hb (some b) none) =
      observeUnrecognised h (TaxonReport.init hb (some b) none)) ∧
    (∀ (ha hb : Bool),
      (TaxonReport.init ha none none).unrecognised_taxa =
        (TaxonReport.init hb none none).unrecognised_taxa ∧
      (TaxonReport.init ha none none).suggested_names =
        (TaxonReport.init hb none none).suggested_names) := by
  constructor
  · intro h a b v ha hb hne
    simp only [observeUnrecognised, mutateUnrecognised, TaxonReport.init,
      PyHeap.get, PyHeap.mutate, Option.getD_some]
    rw [List.getElem?_set_ne hne]
  · intro ha hb
    exact ⟨rfl, rfl⟩

/-- C9 witness: the amended theorem applied at addresses 2 and 3 on a concrete
heap. -/
theorem C9_witness :
    (2 : Nat) ≠ 3 ∧
    observeUnrecognised
      (mutateUnrecognised ⟨[[], [], ["p"], ["q"]]⟩ (TaxonReport.init false (some 2) none) ["z"])
      (TaxonReport.init false (some 3) none) =
    observeUnrecognised ⟨[[], [], ["p"], ["q"]]⟩ (TaxonReport.init false (some 3) none) :=
  ⟨by decide,
   C9_default_sharing_amended.1 ⟨[[], [], ["p"], ["q"]]⟩ 2 3 ["z"] false false (by decide)⟩

/-! ## Claim C10 -/

/-- C10 counterexample: the claim quantifies over calls where id_term equals
*any* of the id_fields; here id_term is the second candidate but the chain
short-circuits on the first (absent) candidate, appending MISSING_ID_FIELD and
returning the row count — no lookup error is raised although the frame lacks an
`id` column. -/
theorem C10_counterexample :
    ("id" ∈ dfC10.columns) = false ∧ ("b" ∈ ["a", "b"]) = true ∧
    check_id_fields ["a", "b"] "b" dfC10 [] = .ok (dfC10.nrows, ["MISSING_ID_FIELD"]) := by
  refine ⟨by decide, by decide, by decide⟩

/-- C10 (amended): when the chain reaches a candidate equal to id_term — in
particular when id_term is the first candidate — the code reads the canonical
`id` column unconditionally, so a frame lacking `id` raises KeyError instead of
absorbing the failure into the report. -/
theorem C10_alias_keyerror_amended (df : DataFrame) (rest : List String)
    (id_term : String) (errors : List String) (h : df.getCol "id" = none) :
    check_id_fields (id_term :: rest) id_term df errors = .error (.keyError "id") := by
  unfold check_id_fields
  rw [if_neg (by simp)]
  unfold check_id_fields_go resolveIdField
  rw [if_pos rfl, h]

/-- C10 witness: the amended theorem at a concrete frame without an `id`
column. -/
theorem C10_witness :
    dfC10.getCol "id" = none ∧
    check_id_fields ["occurrenceID"] "occurrenceID" dfC10 [] = .error (.keyError "id") :=
  ⟨rfl, C10_alias_keyerror_amended dfC10 [] "occurrenceID" [] rfl⟩

/-! ## Claim C7 -/

/-- C7: generate_coordinates_report returns \x7bfalse, 0, 0\x7d with no warning when
either coordinate column is absent; \x7btrue, 0, 0\x7d with no warning when every
non-null value of both columns coerces into range; and otherwise appends
INVALID_OR_OUT_OF_RANGE_COORDINATES exactly once and reports the per-axis
deficits (non-null count minus in-range count). -/
theorem C7_coordinates_report (df : DataFrame) (warnings : List String) :
    ((df.getCol "decimalLatitude" = none ∨ df.getCol "decimalLongitude" = none) →
      generate_coordinates_report df warnings = (⟨false, 0, 0⟩, warnings)) ∧
    (∀ latCol lonCol,
      df.getCol "decimalLatitude" = some latCol →
      df.getCol "decimalLongitude" = some lonCol →
      (((latCol.filter (fun c => betweenQ (-90) 90 c.toNumCoerce)).length = countNonNull latCol ∧
        (lonCol.filter (fun c => betweenQ (-180) 180 c.toNumCoerce)).length = countNonNull lonCol) →
        generate_coordinates_report df warnings = (⟨true, 0, 0⟩, warnings)) ∧
      (¬((latCol.filter (fun c => betweenQ (-90) 90 c.toNumCoerce)).length = countNonNull latCol ∧
         (lonCol.filter (fun c => betweenQ (-180) 180 c.toNumCoerce)).length = countNonNull lonCol) →
        generate_coordinates_report df warnings =
          (⟨true,
            (countNonNull latCol : Int) -
              (latCol.filter (fun c => betweenQ (-90) 90 c.toNumCoerce)).length,
            (countNonNull lonCol : Int) -
              (lonCol.filter (fun c => betweenQ (-180) 180 c.toNumCoerce)).length⟩,
           warnings ++ ["INVALID_OR_OUT_OF_RANGE_COORDINATES"]))) := by
  constructor
  · intro h
    unfold generate_coordinates_report
    rcases h with h | h
    · rw [h]
    · rw [h]; cases df.getCol "decimalLatitude" <;> rfl
  · intro latCol lonCol hlat hlon
    constructor
    · intro hvalid
      simp only [generate_coordinates_report, hlat, hlon]
      rw [if_pos hvalid]
    · intro hinvalid
      simp only [generate_coordinates_report, hlat, hlon]
      rw [if_neg hinvalid]

/-- C7 witness: scenario 1 of §8 — latitudes [45, 95, -10], longitudes
[100, 100, 200] give \x7btrue, 1, 1\x7d and the out-of-range warning. -/
theorem C7_witness :
    generate_coordinates_report dfS1 [] =
      (⟨true, 1, 1⟩, ["INVALID_OR_OUT_OF_RANGE_COORDINATES"]) := by
  have h := ((C7_coordinates_report dfS1 []).2
    [.num 45, .num 95, .num (-10)] [.num 100, .num 100, .num 200] rfl rfl).2 (by decide)
  exact h.trans (by decide)

/-! ## Claim C8 -/

theorem npUnique_nodup (l : List String) : (npUnique l).Nodup :=
  (List.perm_insertionSort _ l.dedup).nodup_iff.mpr (List.nodup_dedup l)

/-- The sample pipeline `np.unique(...)[:10]` followed by `remove('nan')`
yields at most 10 distinct values with no "nan" left. -/
theorem samples_ok (l : List String) :
    (((npUnique l).take 10).erase "nan").length ≤ 10 ∧
    (((npUnique l).take 10).erase "nan").Nodup ∧
    "nan" ∉ ((npUnique l).take 10).erase "nan" := by
  have hnd : ((npUnique l).take 10).Nodup :=
    (npUnique_nodup l).sublist (List.take_sublist _ _)
  refine ⟨?_, hnd.erase _, ?_⟩
  · exact le_trans (List.erase_sublist _ _).length_le (List.length_take_le _ _)
  · intro hm
    exact ((List.Nodup.mem_erase_iff hnd).mp hm).1 rfl

/-- C8: create_vocabulary_report returns \x7bfield, false, 0, 0, []\x7d when the
field is absent; otherwise has_field is true, recognised + unrecognised +
unpopulated equals the row count, and the samples are at most 10 distinct
values excluding the "nan" sentinel; scenario 3 of §8 gives recognised 2,
unrecognised 1 and samples ["Bogus"]. -/
theorem C8_vocabulary_report :
    (∀ (df : DataFrame) (field : String) (vocab : List String),
      df.getCol field = none →
      create_vocabulary_report df field vocab = ⟨field, false, 0, 0, []⟩) ∧
    (∀ (df : DataFrame) (field : String) (vocab : List String) (col : List Cell),
      df.getCol field = some col →
      (create_vocabulary_report df field vocab).has_field = true ∧
      (create_vocabulary_report df field vocab).recognised_count +
        (create_vocabulary_report df field vocab).unrecognised_count +
        (countNull col : Int) = (df.nrows : Int) ∧
      (create_vocabulary_report df field vocab).non_matching_values.length ≤ 10 ∧
      (create_vocabulary_report df field vocab).non_matching_values.Nodup ∧
      "nan" ∉ (create_vocabulary_report df field vocab).non_matching_values) ∧
    create_vocabulary_report dfS3 "basisOfRecord" ["Observation", "PreservedSpecimen"] =
      ⟨"basisOfRecord", true, 2, 1, ["Bogus"]⟩ := by
  refine ⟨?_, ?_, by decide⟩
  · intro df field vocab h
    simp only [create_vocabulary_report, h]
  · intro df field vocab col hcol
    refine ⟨?_, ?_, ?_, ?_, ?_⟩ <;>
      simp only [create_vocabulary_report, hcol] <;> split
    · rfl
    · rfl
    · dsimp only; omega
    · dsimp only; omega
    · exact (samples_ok _).1
    · simp
    · exact (samples_ok _).2.1
    · simp
    · exact (samples_ok _).2.2
    · simp

/-- C8 witness: the general part of the theorem applied at scenario 3's frame. -/
theorem C8_witness :
    dfS3.getCol "basisOfRecord" =
      some [.str "Observation", .str "observation", .str "Bogus", .null] ∧
    (create_vocabulary_report dfS3 "basisOfRecord"
      ["Observation", "PreservedSpecimen"]).recognised_count +
      (create_vocabulary_report dfS3 "basisOfRecord"
        ["Observation", "PreservedSpecimen"]).unrecognised_count +
      (countNull [.str "Observation", .str "observation", .str "Bogus", Cell.null] : Int) =
      (dfS3.nrows : Int) :=
  ⟨rfl,
   (C8_vocabulary_report.2.1 dfS3 "basisOfRecord" ["Observation", "PreservedSpecimen"]
     [.str "Observation", .str "observation", .str "Bogus", .null] rfl).2.1⟩

/-! ## Claim C6 -/

/-- A candidate passes the chain and the loop continues past it: its resolved
column exists, is fully populated, and (in the single-candidate call) has
distinct values. -/
def idChainPasses (id_term : String) (df : DataFrame) (single : Bool) (f : String) : Prop :=
  ∃ s, resolveIdField id_term df f = .found s ∧ s.all (fun c => !c.isNull) = true ∧
    (single = true → nuniqueCells s = df.nrows)

theorem go_skip (single : Bool) (id_term : String) (df : DataFrame)
    (pre : List String) :
    ∀ (l errors : List String), (∀ g ∈ pre, idChainPasses id_term df single g) →
      check_id_fields_go single id_term df (pre ++ l) errors =
        check_id_fields_go single id_term df l errors := by
  induction pre with
  | nil => intro l errors _; rfl
  | cons g pre ih =>
      intro l errors hpre
      obtain ⟨s, hres, hpop, huniq⟩ := hpre g (by simp)
      rw [List.cons_append]
      simp only [check_id_fields_go, hres, hpop, if_true]
      cases single with
      | false =>
          simp only [Bool.false_eq_true, if_false]
          exact ih l errors (fun g hg => hpre g (List.mem_cons_of_mem _ hg))
      | true =>
          simp only [if_pos rfl]
          rw [if_pos (huniq rfl)]
          exact ih l errors (fun g hg => hpre g (List.mem_cons_of_mem _ hg))

/-- C6 (amended): check_id_fields is the short-circuiting priority chain the
claim describes, except in the alias case: a reached candidate equal to
id_term resolves to the canonical `id` column, and when that column is absent
the call raises KeyError instead of appending MISSING_ID_FIELD (last
conjunct); the absent-column error branch applies only to non-alias
candidates. -/
theorem C6_id_chain_amended (df : DataFrame) (id_term : String) :
    (∀ errors, check_id_fields [] id_term df errors = .ok (0, errors)) ∧
    (∀ (pre : List String) (f : String) (rest errors : List String),
      (∀ g ∈ pre, idChainPasses id_term df ((pre ++ f :: rest).length == 1) g) →
      id_term ≠ f → df.getCol f = none →
      check_id_fields (pre ++ f :: rest) id_term df errors =
        .ok (df.nrows, errors ++ ["MISSING_ID_FIELD"])) ∧
    (∀ (pre : List String) (f : String) (rest errors : List String) (s : List Cell),
      (∀ g ∈ pre, idChainPasses id_term df ((pre ++ f :: rest).length == 1) g) →
      resolveIdField id_term df f = .found s →
      s.all (fun c => !c.isNull) = false →
      check_id_fields (pre ++ f :: rest) id_term df errors =
        .ok (countNull s, errors ++ ["MISSING_ID_FIELD_VALUES"])) ∧
    (∀ (f : String) (errors : List String) (s : List Cell),
      resolveIdField id_term df f = .found s →
      s.all (fun c => !c.isNull) = true →
      nuniqueCells s ≠ df.nrows →
      check_id_fields [f] id_term df errors =
        .ok (dupCount s, errors ++ ["DUPLICATE_ID_FIELD_VALUES"])) ∧
    (∀ (fields errors : List String),
      (∀ g ∈ fields, idChainPasses id_term df (fields.length == 1) g) →
      check_id_fields fields id_term df errors = .ok (0, errors)) ∧
    (∀ (pre : List String) (rest errors : List String),
      (∀ g ∈ pre, idChainPasses id_term df ((pre ++ id_term :: rest).length == 1) g) →
      df.getCol "id" = none →
      check_id_fields (pre ++ id_term :: rest) id_term df errors =
        .error (.keyError "id")) := by
  refine ⟨fun errors => rfl, ?_, ?_, ?_, ?_, ?_⟩
  · intro pre f rest errors hpre hne hnone
    unfold check_id_fields
    rw [if_neg (by simp)]
    rw [go_skip _ _ _ _ _ _ hpre]
    simp only [check_id_fields_go, resolveIdField, if_neg hne, hnone]
  · intro pre f rest errors s hpre hres hpop
    unfold check_id_fields
    rw [if_neg (by simp)]
    rw [go_skip _ _ _ _ _ _ hpre]
    simp only [check_id_fields_go, hres, hpop]
    rfl
  · intro f errors s hres hpop hnu
    unfold check_id_fields
    rw [if_neg (by simp)]
    simp only [check_id_fields_go, hres, hpop]
    simp [hnu]
  · intro fields errors hpass
    unfold check_id_fields
    cases fields with
    | nil => rw [if_pos rfl]
    | cons f fs =>
        rw [if_neg (by simp)]
        have h := go_skip ((f :: fs).length == 1) id_term df (f :: fs) [] errors hpass
        rw [List.append_nil] at h
        rw [h]
        rfl
  · intro pre rest errors hpre hnone
    unfold check_id_fields
    rw [if_neg (by simp)]
    rw [go_skip _ _ _ _ _ _ hpre]
    simp [check_id_fields_go, resolveIdField, hnone]

/-- C6 counterexample: with a single candidate equal to id_term and no `id`
column, the resolved column is absent, yet the code raises KeyError instead of
appending MISSING_ID_FIELD and returning the row count as the claim states. -/
theorem C6_counterexample :
    resolveIdField "occurrenceID" dfC6 "occurrenceID" = .idKeyError ∧
    check_id_fields ["occurrenceID"] "occurrenceID" dfC6 [] = .error (.keyError "id") ∧
    check_id_fields ["occurrenceID"] "occurrenceID" dfC6 [] ≠
      .ok (dfC6.nrows, ["MISSING_ID_FIELD"]) := by
  refine ⟨rfl, rfl, by decide⟩

/-- C6 witness: the amended theorem's duplicate clause at a concrete frame
whose single identifier column holds [1, 1]. -/
theorem C6_witness :
    resolveIdField "" dfC6 "occurrenceID" = .found [.str "1", .str "1"] ∧
    ([Cell.str "1", Cell.str "1"].all (fun c => !c.isNull)) = true ∧
    nuniqueCells [Cell.str "1", Cell.str "1"] ≠ dfC6.nrows ∧
    check_id_fields ["occurrenceID"] "" dfC6 [] =
      .ok (1, ["DUPLICATE_ID_FIELD_VALUES"]) :=
  ⟨rfl, rfl, by decide,
    ((C6_id_chain_amended dfC6 "").2.2.2.1 "occurrenceID" [] [.str "1", .str "1"]
      rfl rfl (by decide)).trans (by decide)⟩

/-! ## Claim C4 -/

theorem ok_bind {α β : Type} (a : α) (k : α → Except PyErr β) :
    ((Except.ok a : Except PyErr α) >>= k) = k a := rfl

theorem err_bind {α β : Type} (e : PyErr) (k : α → Except PyErr β) :
    ((Except.error e : Except PyErr α) >>= k) = .error e := rfl

/-- A batch-matched name leaves the fold state untouched. -/
theorem taxonStep_found (collab : Collab) (terms : List String) (nm : Nat)
    (inc : Bool) (batchResp : List BatchItem) (st : Bool × InvalidDict) (item : Cell)
    (h : batchResp.any (fun d => d.scientificName = some item) = true) :
    taxonStep collab terms nm inc batchResp st item = .ok st := by
  unfold taxonStep
  rw [if_pos h]

/-- When every deduplicated name is matched by the batch response, the name
loop returns its initial state. -/
theorem taxon_fold_all_matched (collab : Collab) (terms : List String) (nm : Nat)
    (inc : Bool) (batchResp : List BatchItem) :
    ∀ (names : List Cell) (st : Bool × InvalidDict),
      (∀ c ∈ names, batchResp.any (fun d => d.scientificName = some c) = true) →
      names.foldlM (taxonStep collab terms nm inc batchResp) st = .ok st := by
  intro names
  induction names with
  | nil => intro st _; rfl
  | cons n rest ih =>
      intro st h
      rw [List.foldlM_cons, taxonStep_found _ _ _ _ _ _ _ (h n (by simp)), ok_bind]
      exact ih st (fun c hc => h c (List.mem_cons_of_mem _ hc))

/-- `validate_required_fields` yields a Series whenever scientificName is a
required column present in the frame. -/
theorem validate_required_series (df : DataFrame) (required : List String)
    (col : List Cell) (hcol : df.getCol "scientificName" = some col)
    (hreq : "scientificName" ∈ required) :
    validate_required_fields df required =
      .series ((required.filter (fun f => (df.getCol f).isSome)).map
        (fun f => (f, countNonNull ((df.getCol f).getD [])))) := by
  unfold validate_required_fields
  rw [if_neg]
  intro hall
  have := List.all_eq_true.mp hall "scientificName" hreq
  rw [hcol] at this
  exact absurd (of_decide_eq_true this) (by simp)

/-- Every run that completes the name loop and the count computation dies at
the `TaxonReport(..., valid_taxon_count=...)` construction (validate.py:573):
under a batch response matching every name, the call raises TypeError. -/
theorem create_taxonomy_all_matched_typeerror (collab : Collab)
    (taxon_terms required : List String) (df : DataFrame) (col : List Cell)
    (hcol : df.getCol "scientificName" = some col)
    (hreq : "scientificName" ∈ required)
    (hall : ∀ c ∈ col.dedup,
      ((collab.batch col.dedup).any (fun d => d.scientificName = some c)) = true) :
    create_taxonomy_report collab taxon_terms required df 5 true =
      .error .typeError := by
  have h1 := taxon_fold_all_matched collab taxon_terms 5 true (collab.batch col.dedup)
    col.dedup (false, initInvalidDict taxon_terms) hall
  simp only [create_taxonomy_report, hcol, h1, ok_bind,
    validate_required_series df required col hcol hreq, Bool.false_eq_true, if_false]
  rfl

theorem countNonNull_replicate (n : Nat) (s : String) :
    countNonNull (List.replicate n (Cell.str s)) = n := by
  unfold countNonNull
  rw [List.filter_replicate]
  simp [Cell.isNull]

/-- On `dfRepN n` (everything populated, every name batch-matched) the call
raises TypeError at the report construction, and the required-fields Series it
consumed holds the populated count n for every required taxonomy column. -/
theorem create_taxonomy_dfRepN (n : Nat) (hn : n ≠ 0) :
    create_taxonomy_report batchAllCollab specVocab.taxon_terms_australia
      specVocab.required_taxonomy_columns (dfRepN n) 5 true = .error .typeError ∧
    validate_required_fields (dfRepN n) specVocab.required_taxonomy_columns =
      .series (specVocab.required_taxonomy_columns.map (fun f => (f, n))) := by
  have hcol : (dfRepN n).getCol "scientificName" = some (List.replicate n (.str "x")) := rfl
  have hdedup : (List.replicate n (Cell.str "x")).dedup = [Cell.str "x"] :=
    List.replicate_dedup hn
  have hall : ∀ c ∈ (List.replicate n (Cell.str "x")).dedup,
      ((batchAllCollab.batch (List.replicate n (Cell.str "x")).dedup).any
        (fun d => d.scientificName = some c)) = true := by
    rw [hdedup]
    intro c hc
    simp only [List.mem_singleton] at hc
    subst hc
    simp [batchAllCollab]
  refine ⟨create_taxonomy_all_matched_typeerror batchAllCollab _ _ (dfRepN n)
    (List.replicate n (.str "x")) hcol (by decide) hall, ?_⟩
  unfold validate_required_fields
  rw [if_neg (by simp [dfRepN, DataFrame.getCol, specVocab, List.find?])]
  simp [dfRepN, DataFrame.getCol, specVocab, List.find?, countNonNull_replicate]

/-- C4: the claim says create_taxonomy_report returns a TaxonReport carrying
valid_taxon_count. In the code the return statement (validate.py:573) passes
`valid_taxon_count=` to `TaxonReport.__init__` (model.py:48-52), which has no
such parameter, so every path that reaches the return raises TypeError and no
TaxonReport is ever produced: at 1000 fully-populated rows with every name
recognised the call errors. Further, the local valid_taxon_count computed just
before the failing construction is 999 there, not the claimed clamped minimum
1000: the running minimum only updates for counts strictly below shape[0] and
the clamp only lowers. -/
theorem C4_taxonomy_constructor_typeerror :
    create_taxonomy_report batchAllCollab specVocab.taxon_terms_australia
      specVocab.required_taxonomy_columns (dfRepN 1000) 5 true = .error .typeError ∧
    validate_required_fields (dfRepN 1000) specVocab.required_taxonomy_columns =
      .series (specVocab.required_taxonomy_columns.map (fun f => (f, 1000))) ∧
    validTaxonFold (dfRepN 1000).nrows
      (specVocab.required_taxonomy_columns.map (fun f => (f, 1000))) = 999 ∧
    (dfRepN 1000).nrows = 1000 :=
  ⟨(create_taxonomy_dfRepN 1000 (by omega)).1,
   (create_taxonomy_dfRepN 1000 (by omega)).2,
   by decide, rfl⟩

/-! ## Claim C5 -/

/-- The conditions under which one name's step cannot abort: a batch match, a
ranked first autocomplete result, or an empty autocomplete with a successful
search carrying the scientificName and rank keys. -/
def nameResolvesWithoutAbort (collab : Collab) (nm : Nat) (inc : Bool)
    (batchResp : List BatchItem) (c : Cell) : Prop :=
  (batchResp.any (fun d => d.scientificName = some c)) = true ∨
  (∃ s, c = .str s ∧
    ((∃ r rs rk, collab.autocomplete s nm inc = r :: rs ∧ r.rank = some rk) ∨
     (collab.autocomplete s nm inc = [] ∧ (collab.search s).success = true ∧
      (∃ v, (collab.search s).data.lookup "scientificName" = some v) ∧
      (∃ w, (collab.search s).data.lookup "rank" = some w))))

theorem taxonStep_good (collab : Collab) (terms : List String) (nm : Nat)
    (inc : Bool) (batchResp : List BatchItem) (st : Bool × InvalidDict) (c : Cell)
    (h : nameResolvesWithoutAbort collab nm inc batchResp c) :
    ∃ st', taxonStep collab terms nm inc batchResp st c = .ok st' := by
  by_cases hb : (batchResp.any (fun d => d.scientificName = some c)) = true
  · exact ⟨st, taxonStep_found _ _ _ _ _ _ _ hb⟩
  · have hbf : (batchResp.any (fun d => d.scientificName = some c)) = false := by
      simpa using hb
    rcases h with h | ⟨s, rfl, hcase⟩
    · exact absurd h hb
    · rcases hcase with ⟨r, rs, rk, hac, hr⟩ | ⟨hac, hsu, ⟨v, hv⟩, ⟨w, hw⟩⟩
      · exact ⟨(true, appendClTerms terms r.cl (dictAppend3 st.2 (.str s) r.name rk)), by
          simp only [taxonStep, hbf, Bool.false_eq_true, if_false, hac, hr]⟩
      · exact ⟨(true, appendClTerms terms (collab.search s).data
            (dictAppend3 st.2 (.str s) v w)), by
          simp [taxonStep, hbf, hac, hsu, hv, hw]⟩

theorem taxon_fold_good (collab : Collab) (terms : List String) (nm : Nat)
    (inc : Bool) (batchResp : List BatchItem) :
    ∀ (names : List Cell) (st : Bool × InvalidDict),
      (∀ c ∈ names, nameResolvesWithoutAbort collab nm inc batchResp c) →
      ∃ st', names.foldlM (taxonStep collab terms nm inc batchResp) st = .ok st' := by
  intro names
  induction names with
  | nil => intro st _; exact ⟨st, rfl⟩
  | cons n rest ih =>
      intro st h
      obtain ⟨st', hstep⟩ := taxonStep_good collab terms nm inc batchResp st n (h n (by simp))
      obtain ⟨st'', hrest⟩ := ih st' (fun c hc => h c (List.mem_cons_of_mem _ hc))
      exact ⟨st'', by rw [List.foldlM_cons, hstep, ok_bind, hrest]⟩

/-- C5: a name that misses the batch response, gets an empty autocomplete, and
whose exact search reports success=false terminally aborts the taxonomy run
(`sys.exit`, modelled as processExit) — no report is produced and the names
after it are never consulted (the conclusion holds for every `rest`); whereas
a run in which every name is batch-matched, ranked by autocomplete, or
rescued by a successful search is never process-aborted: the whole name loop
completes and the call fails only afterwards, with the TypeError of the
`TaxonReport(..., valid_taxon_count=...)` construction (the separate
validate.py:573 defect), never with the process exit. -/
theorem C5_terminal_abort (collab : Collab) (taxon_terms required : List String)
    (df : DataFrame) (col : List Cell)
    (hcol : df.getCol "scientificName" = some col) :
    (∀ (pre : List Cell) (s : String) (rest : List Cell),
      col.dedup = pre ++ .str s :: rest →
      (∀ c ∈ pre,
        ((collab.batch (pre ++ .str s :: rest)).any
          (fun d => d.scientificName = some c)) = true) →
      ((collab.batch (pre ++ .str s :: rest)).any
        (fun d => d.scientificName = some (.str s))) = false →
      collab.autocomplete s 5 true = [] →
      (collab.search s).success = false →
      create_taxonomy_report collab taxon_terms required df 5 true =
        .error .processExit) ∧
    ("scientificName" ∈ required →
      (∀ c ∈ col.dedup,
        nameResolvesWithoutAbort collab 5 true (collab.batch col.dedup) c) →
      create_taxonomy_report collab taxon_terms required df 5 true =
        .error .typeError) := by
  constructor
  · intro pre s rest hsplit hpre hmiss hac hsu
    unfold create_taxonomy_report
    rw [hcol]
    dsimp only
    rw [hsplit, List.foldlM_append,
      taxon_fold_all_matched collab taxon_terms 5 true _ pre _ hpre, ok_bind,
      List.foldlM_cons]
    have hstep : taxonStep collab taxon_terms 5 true
        (collab.batch (pre ++ Cell.str s :: rest))
        (false, initInvalidDict taxon_terms) (.str s) = .error .processExit := by
      simp only [taxonStep, hmiss, Bool.false_eq_true, if_false, hac, hsu]
    rw [hstep, err_bind, err_bind]
  · intro hreq hgood
    unfold create_taxonomy_report
    rw [hcol]
    dsimp only
    obtain ⟨⟨b, d⟩, hf⟩ := taxon_fold_good collab taxon_terms 5 true
      (collab.batch col.dedup) col.dedup (false, initInvalidDict taxon_terms) hgood
    rw [hf, ok_bind]
    cases b with
    | true => rfl
    | false =>
        simp only [Bool.false_eq_true, if_false,
          validate_required_series df required col hcol hreq]
        rfl

/-- C5 witness: the abort clause at a concrete frame with two names, the first
unmatched at every tier; the second name is never consulted and the call ends
in the process exit. -/
theorem C5_witness :
    dfC5.getCol "scientificName" = some [.str "Aus bus", .str "Cus dus"] ∧
    [Cell.str "Aus bus", Cell.str "Cus dus"].dedup =
      [] ++ .str "Aus bus" :: [.str "Cus dus"] ∧
    trivialCollab.autocomplete "Aus bus" 5 true = [] ∧
    (trivialCollab.search "Aus bus").success = false ∧
    create_taxonomy_report trivialCollab ["kingdom"] ["scientificName"] dfC5 5 true =
      .error .processExit :=
  ⟨rfl, by decide, rfl, rfl,
   (C5_terminal_abort trivialCollab ["kingdom"] ["scientificName"] dfC5
     [.str "Aus bus", .str "Cus dus"] rfl).1 [] "Aus bus" [.str "Cus dus"]
     (by decide) (by intro c hc; exact absurd hc (by simp)) (by decide) rfl rfl⟩

end DwcV
